import Mathlib

/-
Verification of the feature-engineering and inference-orchestration
pipeline of the bleeding-risk predictor (src/bleeding-risk-predictor.py).

The pipeline is embedded shallowly: the input widgets become fields of a
record, the derived-feature expressions and the dict literal of
user_input_features are transcribed directly, the pandas call
pd.DataFrame([data], columns=feature_names) is modelled by its
column-selection semantics, and the button handler of main becomes a
total function over Except-valued scorer/explainer calls.
All numeric widget values are modelled as rationals.
-/

set_option maxHeartbeats 1000000

/-- Raw clinical values captured by the input widgets of
user_input_features (lines 33-69 of src/bleeding-risk-predictor.py).
Numeric widgets (st.number_input) are modelled as rationals; the select
boxes (st.selectbox) return the chosen option string, "No"/"Yes" for the
flags and "Male"/"Female" for gender. -/
structure PatientRecord where
  apache_iv_score : ℚ
  gcs : ℚ
  albumin_max : ℚ
  hematocrit_min : ℚ
  anemia : String
  platelet_min : ℚ
  ptt_max : ℚ
  pt_max : ℚ
  bun_max : ℚ
  respiratoryrate : ℚ
  nibp_systolic : ℚ
  nibp_diastolic : ℚ
  gender : String
  caucasian : String
  medsurg_icu : String
  cardiac_icu : String
  neuro_icu : String
  gastrointestinal_condition : String
  trauma : String
  history_of_bleed : String
  history_of_vte : String
  sepsis : String
  vascular_disorders : String
  stress_ulcer_drug : String

/-- Line 72: coagulation_dysfunction = 1 if (ptt_max > 40 or pt_max > 14) else 0. -/
def coagulation_dysfunction (ptt_max pt_max : ℚ) : ℚ :=
  if ptt_max > 40 ∨ pt_max > 14 then 1 else 0

/-- Line 73: respiratory_failure = 1 if (respiratoryrate > 24 or nibp_systolic < 90) else 0. -/
def respiratory_failure (respiratoryrate nibp_systolic : ℚ) : ℚ :=
  if respiratoryrate > 24 ∨ nibp_systolic < 90 then 1 else 0

/-- The categorical encoding used for every Yes/No field of the dict
(lines 81-104): the Python expression 1 if x == "Yes" else 0. -/
def yesNoEncode (s : String) : ℚ := if s = "Yes" then 1 else 0

/-- Line 90: gender is encoded by 1 if gender == "Female" else 0. -/
def genderEncode (s : String) : ℚ := if s = "Female" then 1 else 0

/-- The dict literal `data` of user_input_features (lines 76-105), an
ordered association list of feature name to numeric value, in exactly the
source order.  The two uncollected features are the constant 0 entries. -/
def userInputData (r : PatientRecord) : List (String × ℚ) :=
  [("apache_iv_score", r.apache_iv_score),
   ("gcs", r.gcs),
   ("albumin_max", r.albumin_max),
   ("hematocrit_min", r.hematocrit_min),
   ("anemia", yesNoEncode r.anemia),
   ("platelet_min", r.platelet_min),
   ("ptt_max", r.ptt_max),
   ("coagulation_dysfunction", coagulation_dysfunction r.ptt_max r.pt_max),
   ("pt_max", r.pt_max),
   ("bun_max", r.bun_max),
   ("respiratoryrate", r.respiratoryrate),
   ("nibp_systolic", r.nibp_systolic),
   ("nibp_diastolic", r.nibp_diastolic),
   ("gender", genderEncode r.gender),
   ("caucasian", yesNoEncode r.caucasian),
   ("medsurg_icu", yesNoEncode r.medsurg_icu),
   ("cardiac_icu", yesNoEncode r.cardiac_icu),
   ("neuro_icu", yesNoEncode r.neuro_icu),
   ("gastrointestinal_condition", yesNoEncode r.gastrointestinal_condition),
   ("trauma", yesNoEncode r.trauma),
   ("history_of_bleed", yesNoEncode r.history_of_bleed),
   ("history_of_vte", yesNoEncode r.history_of_vte),
   ("sepsis", yesNoEncode r.sepsis),
   ("vascular_disorders", yesNoEncode r.vascular_disorders),
   ("acute_coronary_syndrome", 0),
   ("respiratory_failure", respiratory_failure r.respiratoryrate r.nibp_systolic),
   ("vasopressors_inotropic_agents", 0),
   ("stress_ulcer_drug", yesNoEncode r.stress_ulcer_drug)]

/-- Modelled from the spec: the feature_names sequence stored in the model
bundle xgboost_bleed_model.joblib, which is loaded at line 15 but is not a
file of the repository.  The schema table of the spec lists these 28 names
in this order. -/
def featureNames28 : List String :=
  ["apache_iv_score", "gcs", "albumin_max", "hematocrit_min", "anemia",
   "platelet_min", "ptt_max", "coagulation_dysfunction", "pt_max", "bun_max",
   "respiratoryrate", "nibp_systolic", "nibp_diastolic", "gender", "caucasian",
   "medsurg_icu", "cardiac_icu", "neuro_icu", "gastrointestinal_condition",
   "trauma", "history_of_bleed", "history_of_vte", "sepsis",
   "vascular_disorders", "acute_coronary_syndrome", "respiratory_failure",
   "vasopressors_inotropic_agents", "stress_ulcer_drug"]

/-- Semantics of the pandas call pd.DataFrame([data], columns=cols)
(line 107): the single row has exactly the columns cols, in that order;
each value is looked up in data by name; a column name absent from data
holds a missing value (NaN, modelled as none); keys of data that are not
in cols are dropped. -/
def dataFrameRow (data : List (String × ℚ)) (columns : List String) :
    List (String × Option ℚ) :=
  columns.map (fun c => (c, data.lookup c))

/-- The Feature Vector Assembler: user_input_features returns
pd.DataFrame([data], columns=feature_names) (line 107). -/
def user_input_features (r : PatientRecord) (feature_names : List String) :
    List (String × Option ℚ) :=
  dataFrameRow (userInputData r) feature_names

/-- Line 24: THRESHOLD = 0.5. -/
def THRESHOLD : ℚ := 0.5

/-- Line 123: prediction = "High Risk" if proba >= THRESHOLD else "Low Risk". -/
def prediction (proba : ℚ) : String :=
  if proba ≥ THRESHOLD then "High Risk" else "Low Risk"

/-- The three risk bands of the Risk Interpretation section (lines 148-168). -/
inductive RiskBand where
  | high
  | moderate
  | low
deriving DecidableEq

/-- Lines 148-168: if proba > 0.7 show the high-risk warning, elif
proba > 0.3 show the moderate-risk note, else show the low-risk note. -/
def riskBand (proba : ℚ) : RiskBand :=
  if proba > 0.7 then RiskBand.high
  else if proba > 0.3 then RiskBand.moderate
  else RiskBand.low

/-- C2: the Derived Feature Calculator is a pure deterministic function with
coagulation_dysfunction = 1 iff ptt_max > 40 or pt_max > 14 (else 0) and
respiratory_failure = 1 iff respiratoryrate > 24 or nibp_systolic < 90
(else 0). -/
theorem C2_derived_feature_determinism (ptt pt rr sbp : ℚ) :
    (coagulation_dysfunction ptt pt = 1 ↔ (ptt > 40 ∨ pt > 14)) ∧
    (coagulation_dysfunction ptt pt = 0 ↔ ¬(ptt > 40 ∨ pt > 14)) ∧
    (respiratory_failure rr sbp = 1 ↔ (rr > 24 ∨ sbp < 90)) ∧
    (respiratory_failure rr sbp = 0 ↔ ¬(rr > 24 ∨ sbp < 90)) := by
  unfold coagulation_dysfunction respiratory_failure
  constructor
  · split <;> simp_all
  constructor
  · split <;> simp_all
  constructor
  · split <;> simp_all
  · split <;> simp_all

/-- C3: the binary label is "High Risk" iff proba ≥ THRESHOLD (= 0.5), and
the band is high iff proba > 0.7, moderate iff 0.3 < proba ≤ 0.7, low iff
proba ≤ 0.3, including at the exact boundaries 0.3, 0.5, 0.7. -/
theorem C3_threshold_consistency (p : ℚ) :
    (prediction p = "High Risk" ↔ p ≥ THRESHOLD) ∧
    (prediction p = "Low Risk" ↔ p < THRESHOLD) ∧
    THRESHOLD = 0.5 ∧
    (riskBand p = RiskBand.high ↔ p > 0.7) ∧
    (riskBand p = RiskBand.moderate ↔ (0.3 < p ∧ p ≤ 0.7)) ∧
    (riskBand p = RiskBand.low ↔ p ≤ 0.3) ∧
    prediction 0.5 = "High Risk" ∧
    riskBand 0.7 = RiskBand.moderate ∧
    riskBand 0.3 = RiskBand.low := by
  refine ⟨?_, ?_, rfl, ?_, ?_, ?_,
    by norm_num [prediction, THRESHOLD],
    by norm_num [riskBand],
    by norm_num [riskBand]⟩
  · unfold prediction
    split <;> rename_i h
    · simpa using h
    · constructor
      · intro hc
        exact absurd hc (by simp)
      · intro hc
        exact absurd hc h
  · unfold prediction
    split <;> rename_i h
    · constructor
      · intro hc
        exact absurd hc (by simp)
      · intro hc
        exact absurd h (not_le.mpr hc)
    · simpa [not_le] using h
  · unfold riskBand
    split <;> rename_i h1
    · simp [h1]
    · constructor
      · intro h
        split at h <;> exact absurd h (by decide)
      · intro h
        exact absurd h h1
  · unfold riskBand
    split <;> rename_i h1
    · constructor
      · intro h
        exact absurd h (by decide)
      · intro h
        exact absurd h1 (not_lt.mpr h.2)
    · split <;> rename_i h2
      · simp [h2, le_of_not_lt h1]
      · constructor
        · intro h
          exact absurd h (by decide)
        · intro h
          exact absurd h.1 h2
  · unfold riskBand
    split <;> rename_i h1
    · constructor
      · intro h
        exact absurd h (by decide)
      · intro h
        exact absurd h1 (not_lt.mpr (le_trans h (by norm_num)))
    · split <;> rename_i h2
      · constructor
        · intro h
          exact absurd h (by decide)
        · intro h
          exact absurd h2 (not_lt.mpr h)
      · simp [le_of_not_lt h2]

/-- Step behaviour of association-list lookup on a cons cell. -/
theorem lookup_cons_step {β : Type} (k : String) (v : β) (t : List (String × β))
    (c : String) :
    ((k, v) :: t).lookup c = if c = k then some v else t.lookup c := by
  by_cases h : c = k
  · simp [List.lookup, h]
  · have hb : (c == k) = false := beq_eq_false_iff_ne.mpr h
    simp [List.lookup, hb, h]

/-- A key that occurs among the keys of an association list has a value. -/
theorem lookup_isSome_of_mem_keys {β : Type} (l : List (String × β)) (c : String)
    (h : c ∈ l.map Prod.fst) : (l.lookup c).isSome := by
  induction l with
  | nil => simp at h
  | cons a t ih =>
    obtain ⟨k, v⟩ := a
    rw [lookup_cons_step]
    by_cases hc : c = k
    · simp [hc]
    · simp only [List.map_cons, List.mem_cons] at h
      exact if_neg hc ▸ ih (h.resolve_left hc)

/-- A key that does not occur among the keys of an association list has no value. -/
theorem lookup_eq_none_of_not_mem_keys {β : Type} (l : List (String × β)) (c : String)
    (h : c ∉ l.map Prod.fst) : l.lookup c = none := by
  induction l with
  | nil => rfl
  | cons a t ih =>
    obtain ⟨k, v⟩ := a
    simp only [List.map_cons, List.mem_cons, not_or] at h
    rw [lookup_cons_step, if_neg h.1]
    exact ih h.2

/-- The column names of a dataFrameRow are exactly the requested columns. -/
theorem dataFrameRow_names (data : List (String × ℚ)) (columns : List String) :
    (dataFrameRow data columns).map Prod.fst = columns := by
  induction columns with
  | nil => rfl
  | cons c t ih => simpa [dataFrameRow] using ih

/-- A requested column of a dataFrameRow holds the lookup of that name in the
underlying data (possibly none, i.e. NaN, when the name is not a data key). -/
theorem dataFrameRow_lookup (data : List (String × ℚ)) (columns : List String)
    (c : String) (h : c ∈ columns) :
    (dataFrameRow data columns).lookup c = some (data.lookup c) := by
  induction columns with
  | nil => simp at h
  | cons a t ih =>
    show ((a, data.lookup a) :: dataFrameRow data t).lookup c = _
    rw [lookup_cons_step]
    by_cases hc : c = a
    · rw [if_pos hc, hc]
    · rw [if_neg hc]
      exact ih ((List.mem_cons.mp h).resolve_left hc)

/-- The keys of the assembled dict are featureNames28, whatever the record. -/
theorem userInputData_keys (r : PatientRecord) :
    (userInputData r).map Prod.fst = featureNames28 := rfl

/-- Every cell of a dataFrameRow whose columns are drawn from the data keys is
populated. -/
theorem dataFrameRow_cells_isSome (data : List (String × ℚ)) (columns : List String)
    (hcov : ∀ c ∈ columns, c ∈ data.map Prod.fst) :
    ∀ cell ∈ dataFrameRow data columns, cell.2.isSome := by
  intro cell hcell
  simp only [dataFrameRow, List.mem_map] at hcell
  obtain ⟨c, hc, rfl⟩ := hcell
  exact lookup_isSome_of_mem_keys data c (hcov c hc)

/-- The record whose fields are the default values of the input widgets
(lines 33-69): this is end-to-end scenario 1 of the spec. -/
def defaultRecord : PatientRecord :=
  { apache_iv_score := 50, gcs := 12, albumin_max := 3.5, hematocrit_min := 30,
    anemia := "No", platelet_min := 150, ptt_max := 35, pt_max := 13,
    bun_max := 20, respiratoryrate := 18, nibp_systolic := 120,
    nibp_diastolic := 80, gender := "Male", caucasian := "Yes",
    medsurg_icu := "No", cardiac_icu := "No", neuro_icu := "No",
    gastrointestinal_condition := "No", trauma := "No",
    history_of_bleed := "No", history_of_vte := "No", sepsis := "No",
    vascular_disorders := "No", stress_ulcer_drug := "No" }

/-- C1: for every complete patient record and every ordering of the schema,
the assembled single-row vector has exactly the 28 schema names as columns,
in exactly the schema order, with every cell populated; the collection order
of the inputs does not appear anywhere in the assembly. -/
theorem C1_schema_alignment (r : PatientRecord) (schema : List String)
    (hperm : schema.Perm featureNames28) :
    featureNames28.length = 28 ∧
    (user_input_features r schema).map Prod.fst = schema ∧
    ∀ cell ∈ user_input_features r schema, cell.2.isSome := by
  refine ⟨rfl, dataFrameRow_names _ _, ?_⟩
  refine dataFrameRow_cells_isSome _ _ ?_
  intro c hc
  rw [userInputData_keys]
  exact hperm.subset hc

/-- Witness for C1 at the default record and the schema itself. -/
theorem C1_schema_alignment_witness :
    List.Perm featureNames28 featureNames28 ∧
    (featureNames28.length = 28 ∧
     (user_input_features defaultRecord featureNames28).map Prod.fst =
       featureNames28 ∧
     ∀ cell ∈ user_input_features defaultRecord featureNames28,
       cell.2.isSome) :=
  ⟨List.Perm.refl featureNames28,
   C1_schema_alignment defaultRecord featureNames28 (List.Perm.refl featureNames28)⟩

/-- C4: the categorical encoding is uniform: every one of the twelve Yes/No
fields is encoded through the same expression 1 if x == "Yes" else 0, and
gender through 1 if gender == "Female" else 0; the encoders send "Yes" to 1,
"No" to 0, "Female" to 1 and "Male" to 0. -/
theorem C4_encoding_correctness (r : PatientRecord) (s g : String) :
    ((userInputData r).lookup "anemia" = some (yesNoEncode r.anemia)) ∧
    ((userInputData r).lookup "caucasian" = some (yesNoEncode r.caucasian)) ∧
    ((userInputData r).lookup "medsurg_icu" = some (yesNoEncode r.medsurg_icu)) ∧
    ((userInputData r).lookup "cardiac_icu" = some (yesNoEncode r.cardiac_icu)) ∧
    ((userInputData r).lookup "neuro_icu" = some (yesNoEncode r.neuro_icu)) ∧
    ((userInputData r).lookup "gastrointestinal_condition" =
      some (yesNoEncode r.gastrointestinal_condition)) ∧
    ((userInputData r).lookup "trauma" = some (yesNoEncode r.trauma)) ∧
    ((userInputData r).lookup "history_of_bleed" =
      some (yesNoEncode r.history_of_bleed)) ∧
    ((userInputData r).lookup "history_of_vte" =
      some (yesNoEncode r.history_of_vte)) ∧
    ((userInputData r).lookup "sepsis" = some (yesNoEncode r.sepsis)) ∧
    ((userInputData r).lookup "vascular_disorders" =
      some (yesNoEncode r.vascular_disorders)) ∧
    ((userInputData r).lookup "stress_ulcer_drug" =
      some (yesNoEncode r.stress_ulcer_drug)) ∧
    ((userInputData r).lookup "gender" = some (genderEncode r.gender)) ∧
    (yesNoEncode s = 1 ↔ s = "Yes") ∧
    (yesNoEncode s = 0 ↔ s ≠ "Yes") ∧
    yesNoEncode "No" = 0 ∧
    (genderEncode g = 1 ↔ g = "Female") ∧
    (genderEncode g = 0 ↔ g ≠ "Female") ∧
    genderEncode "Male" = 0 := by
  have hy : ∀ sx : String,
      (yesNoEncode sx = 1 ↔ sx = "Yes") ∧ (yesNoEncode sx = 0 ↔ sx ≠ "Yes") := by
    intro sx
    unfold yesNoEncode
    split <;> rename_i h <;> simp [h]
  have hg : ∀ sx : String,
      (genderEncode sx = 1 ↔ sx = "Female") ∧
      (genderEncode sx = 0 ↔ sx ≠ "Female") := by
    intro sx
    unfold genderEncode
    split <;> rename_i h <;> simp [h]
  refine ⟨?_, ?_, ?_, ?_, ?_, ?_, ?_, ?_, ?_, ?_, ?_, ?_, ?_,
    (hy s).1, (hy s).2, (hy "No").2.mpr (by decide),
    (hg g).1, (hg g).2, (hg "Male").2.mpr (by decide)⟩
  all_goals simp [userInputData, lookup_cons_step]

/-- A schema from which the anemia feature was removed without updating the
assembler. -/
def schemaMissingAnemia : List String := featureNames28.erase "anemia"

/-- A schema to which a feature unknown to the assembler was added (equally,
a feature renamed without updating the assembler). -/
def schemaWithUnknown : List String := featureNames28 ++ ["unknown_feature"]

/-- C5 is refuted: when the schema does not match the assembled field set the
assembler does not reject.  With the anemia column removed from the schema it
silently returns a row that drops the collected anemia value, and with an
extra unknown schema name it silently returns a missing value (NaN) in that
column. -/
theorem C5_counterexample :
    "anemia" ∈ (userInputData defaultRecord).map Prod.fst ∧
    "anemia" ∉ schemaMissingAnemia ∧
    (user_input_features defaultRecord schemaMissingAnemia).map Prod.fst =
      schemaMissingAnemia ∧
    "anemia" ∉
      (user_input_features defaultRecord schemaMissingAnemia).map Prod.fst ∧
    (user_input_features defaultRecord schemaWithUnknown).lookup
      "unknown_feature" = some none := by
  refine ⟨by rw [userInputData_keys]; decide, by decide,
    dataFrameRow_names _ _, ?_, ?_⟩
  · rw [show user_input_features defaultRecord schemaMissingAnemia =
      dataFrameRow (userInputData defaultRecord) schemaMissingAnemia from rfl,
      dataFrameRow_names]
    decide
  · have h1 : "unknown_feature" ∈ schemaWithUnknown := by decide
    have h3 : (userInputData defaultRecord).lookup "unknown_feature" = none := by
      refine lookup_eq_none_of_not_mem_keys _ _ ?_
      rw [userInputData_keys]
      decide
    rw [show user_input_features defaultRecord schemaWithUnknown =
      dataFrameRow (userInputData defaultRecord) schemaWithUnknown from rfl,
      dataFrameRow_lookup _ _ _ h1, h3]

/-- C5 amended: the assembler does not fail loudly on a schema mismatch.
Name-based alignment does protect pure reorderings, but a schema name that is
not an assembled key is silently emitted as a missing value (NaN), and
assembled keys absent from the schema are silently dropped. -/
theorem C5_amended_silent_mismatch (r : PatientRecord) (schema : List String)
    (c : String) (hmem : c ∈ schema)
    (hmiss : c ∉ (userInputData r).map Prod.fst) :
    (user_input_features r schema).map Prod.fst = schema ∧
    (user_input_features r schema).lookup c = some none ∧
    ∀ k ∈ (userInputData r).map Prod.fst, k ∉ schema →
      k ∉ (user_input_features r schema).map Prod.fst := by
  refine ⟨dataFrameRow_names _ _, ?_, ?_⟩
  · rw [show user_input_features r schema =
      dataFrameRow (userInputData r) schema from rfl,
      dataFrameRow_lookup _ _ _ hmem,
      lookup_eq_none_of_not_mem_keys _ _ hmiss]
  · intro k _ hnot
    rw [show user_input_features r schema =
      dataFrameRow (userInputData r) schema from rfl,
      dataFrameRow_names]
    exact hnot

/-- Witness for the amended C5 at the default record and the schema with an
extra unknown name. -/
theorem C5_amended_silent_mismatch_witness :
    ("unknown_feature" ∈ schemaWithUnknown ∧
     "unknown_feature" ∉ (userInputData defaultRecord).map Prod.fst) ∧
    ((user_input_features defaultRecord schemaWithUnknown).map Prod.fst =
       schemaWithUnknown ∧
     (user_input_features defaultRecord schemaWithUnknown).lookup
       "unknown_feature" = some none ∧
     ∀ k ∈ (userInputData defaultRecord).map Prod.fst,
       k ∉ schemaWithUnknown →
       k ∉ (user_input_features defaultRecord schemaWithUnknown).map
             Prod.fst) :=
  ⟨⟨by decide, by rw [userInputData_keys]; decide⟩,
   C5_amended_silent_mismatch defaultRecord schemaWithUnknown
     "unknown_feature" (by decide) (by rw [userInputData_keys]; decide)⟩

/-- The two pipeline invocations main can make on the assembled vector:
model.predict_proba (score) and the SHAP explainer call (explain). -/
inductive PipelineCall where
  | score
  | explain
deriving DecidableEq

/-- What one click of the predict button leaves on the screen: either the
rendered results or the error banner of the except branch (line 171). -/
inductive RenderOutcome where
  | results (label : String) (band : RiskBand) : RenderOutcome
  | errorBanner (msg : String) : RenderOutcome
deriving DecidableEq

/-- One run of the button handler: what was rendered, whether the session
terminated, whether the input form is still usable, and the sequence of
pipeline invocations that were made on the vector. -/
structure PredictRun where
  outcome : RenderOutcome
  terminated : Bool
  formIntact : Bool
  calls : List PipelineCall

/-- The try/except body of main (lines 119-171), shallowly embedded.  The
scorer and the explainer are passed in as Except-valued computations, since
both are calls into the loaded model which may raise.  Line 122 invokes
model.predict_proba and line 123 derives the label; line 133 invokes the
explainer; line 147 invokes model.predict_proba a second time on the same
vector and lines 148-168 derive the band from that second probability.  Any
raise lands in the except branch (lines 170-171), which renders st.error
and returns normally, leaving the session alive and the form intact. -/
def runPredict (score : Except String ℚ) (explainCall : Except String (List ℚ)) :
    PredictRun :=
  match score with
  | Except.error e =>
    ⟨RenderOutcome.errorBanner ("Error during prediction: " ++ e),
     false, true, [PipelineCall.score]⟩
  | Except.ok proba =>
    match explainCall with
    | Except.error e =>
      ⟨RenderOutcome.errorBanner ("Error during prediction: " ++ e),
       false, true, [PipelineCall.score, PipelineCall.explain]⟩
    | Except.ok _ =>
      match score with
      | Except.error e =>
        ⟨RenderOutcome.errorBanner ("Error during prediction: " ++ e),
         false, true,
         [PipelineCall.score, PipelineCall.explain, PipelineCall.score]⟩
      | Except.ok proba2 =>
        ⟨RenderOutcome.results (prediction proba) (riskBand proba2),
         false, true,
         [PipelineCall.score, PipelineCall.explain, PipelineCall.score]⟩

/-- C6: every exception of the scoring or explanation call is caught at the
request level, an error message is rendered, the session does not terminate
and the input form stays usable; the handler is a total function, so no
exception propagates out of it. -/
theorem C6_exception_containment (score : Except String ℚ)
    (explainCall : Except String (List ℚ)) :
    (runPredict score explainCall).terminated = false ∧
    (runPredict score explainCall).formIntact = true ∧
    (∀ e, score = Except.error e →
      (runPredict score explainCall).outcome =
        RenderOutcome.errorBanner ("Error during prediction: " ++ e)) ∧
    (∀ p e, score = Except.ok p → explainCall = Except.error e →
      (runPredict score explainCall).outcome =
        RenderOutcome.errorBanner ("Error during prediction: " ++ e)) := by
  cases score <;> cases explainCall <;>
    simp [runPredict]

/-- Witness for C6: a scorer that raises a shape-mismatch error is caught
and shown, with the session alive and the form intact. -/
theorem C6_exception_containment_witness :
    (runPredict (Except.error "shape mismatch")
       (Except.ok ([] : List ℚ))).terminated = false ∧
    (runPredict (Except.error "shape mismatch")
       (Except.ok ([] : List ℚ))).formIntact = true ∧
    (runPredict (Except.error "shape mismatch")
       (Except.ok ([] : List ℚ))).outcome =
      RenderOutcome.errorBanner ("Error during prediction: " ++
        "shape mismatch") := by
  have h := C6_exception_containment (Except.error "shape mismatch")
    (Except.ok ([] : List ℚ))
  exact ⟨h.1, h.2.1, h.2.2.1 "shape mismatch" rfl⟩

/-- C7 is refuted: on the success path the scorer is invoked twice on the
same vector within a single prediction (model.predict_proba at line 122 and
again at line 147), not exactly once. -/
theorem C7_counterexample :
    (runPredict (Except.ok (0.6 : ℚ))
       (Except.ok ([] : List ℚ))).calls.count PipelineCall.score = 2 ∧
    ¬((runPredict (Except.ok (0.6 : ℚ))
       (Except.ok ([] : List ℚ))).calls.count PipelineCall.score ≤ 1) := by
  constructor
  · rfl
  · simp [runPredict]

/-- C7 amended: on a successful prediction the explainer is invoked exactly
once but the scorer exactly twice, both times on the same vector; the second
probability equals the first, so the rendered label and band come from the
same probability. -/
theorem C7_amended_consumption (p : ℚ) (sv : List ℚ) :
    (runPredict (Except.ok p) (Except.ok sv)).calls =
      [PipelineCall.score, PipelineCall.explain, PipelineCall.score] ∧
    (runPredict (Except.ok p) (Except.ok sv)).calls.count
      PipelineCall.explain = 1 ∧
    (runPredict (Except.ok p) (Except.ok sv)).calls.count
      PipelineCall.score = 2 ∧
    (runPredict (Except.ok p) (Except.ok sv)).outcome =
      RenderOutcome.results (prediction p) (riskBand p) := by
  refine ⟨rfl, rfl, rfl, rfl⟩

/-- C10: the binary label and the risk band are computed independently and
disagree on [THRESHOLD, 0.7]: there the label reads "High Risk" while the
band is moderate; on (0.3, THRESHOLD) the label reads "Low Risk" while the
band is again moderate. -/
theorem C10_label_band_disagreement (p : ℚ) :
    (THRESHOLD ≤ p → p ≤ 0.7 →
      prediction p = "High Risk" ∧ riskBand p = RiskBand.moderate) ∧
    (0.3 < p → p < THRESHOLD →
      prediction p = "Low Risk" ∧ riskBand p = RiskBand.moderate) := by
  constructor
  · intro h1 h2
    constructor
    · exact if_pos h1
    · unfold riskBand
      rw [if_neg (not_lt.mpr h2), if_pos]
      calc (0.3 : ℚ) < THRESHOLD := by norm_num [THRESHOLD]
        _ ≤ p := h1
  · intro h1 h2
    constructor
    · exact if_neg (not_le.mpr h2)
    · unfold riskBand
      rw [if_neg, if_pos h1]
      push_neg
      exact le_of_lt (lt_of_lt_of_le h2 (by norm_num [THRESHOLD]))

/-- Witness for C10 at the probabilities 0.6 and 0.4. -/
theorem C10_label_band_disagreement_witness :
    (THRESHOLD ≤ (0.6 : ℚ) ∧ (0.6 : ℚ) ≤ 0.7 ∧
     prediction 0.6 = "High Risk" ∧ riskBand 0.6 = RiskBand.moderate) ∧
    ((0.3 : ℚ) < 0.4 ∧ (0.4 : ℚ) < THRESHOLD ∧
     prediction 0.4 = "Low Risk" ∧ riskBand 0.4 = RiskBand.moderate) := by
  have h1 := (C10_label_band_disagreement 0.6).1
    (by norm_num [THRESHOLD]) (by norm_num)
  have h2 := (C10_label_band_disagreement 0.4).2
    (by norm_num) (by norm_num [THRESHOLD])
  exact ⟨⟨by norm_num [THRESHOLD], by norm_num, h1.1, h1.2⟩,
    ⟨by norm_num, by norm_num [THRESHOLD], h2.1, h2.2⟩⟩

/-- Scenario 2 of the spec: ptt_max raised to 45, every other input at the
scenario-1 defaults. -/
def scenario2Record : PatientRecord := { defaultRecord with ptt_max := 45 }

/-- The schema fields at which the vectors assembled from two records
disagree. -/
def differingFields (r1 r2 : PatientRecord) (schema : List String) :
    List String :=
  schema.filter (fun c =>
    decide ((user_input_features r1 schema).lookup c ≠
      (user_input_features r2 schema).lookup c))

/-- C9 is refuted: the scenario-2 vector differs from the scenario-1 vector
in two fields, not one: the raised raw input ptt_max (35 to 45) and the
derived coagulation_dysfunction (0 to 1). -/
theorem C9_counterexample :
    differingFields defaultRecord scenario2Record featureNames28 =
      ["ptt_max", "coagulation_dysfunction"] ∧
    differingFields defaultRecord scenario2Record featureNames28 ≠
      ["coagulation_dysfunction"] ∧
    differingFields defaultRecord scenario2Record featureNames28 ≠
      ["ptt_max"] := by
  have hd : differingFields defaultRecord scenario2Record featureNames28 =
      ["ptt_max", "coagulation_dysfunction"] := by
    norm_num +decide [differingFields, user_input_features, dataFrameRow,
      userInputData, featureNames28, scenario2Record, defaultRecord,
      yesNoEncode, genderEncode, coagulation_dysfunction,
      respiratory_failure, List.filter_cons, lookup_cons_step]
  refine ⟨hd, by rw [hd]; simp, by rw [hd]; simp⟩

/-- C9 amended: with ptt_max = 45 and all else at the scenario-1 defaults,
the derived coagulation_dysfunction equals 1 and the assembled vector
differs from the scenario-1 vector in exactly the two fields ptt_max and
coagulation_dysfunction. -/
theorem C9_amended_scenario2 :
    (user_input_features scenario2Record featureNames28).lookup
      "coagulation_dysfunction" = some (some 1) ∧
    (user_input_features defaultRecord featureNames28).lookup
      "coagulation_dysfunction" = some (some 0) ∧
    (user_input_features scenario2Record featureNames28).lookup
      "ptt_max" = some (some 45) ∧
    (user_input_features defaultRecord featureNames28).lookup
      "ptt_max" = some (some 35) ∧
    differingFields defaultRecord scenario2Record featureNames28 =
      ["ptt_max", "coagulation_dysfunction"] := by
  refine ⟨?_, ?_, ?_, ?_, (C9_counterexample).1⟩ <;>
    norm_num +decide [user_input_features, dataFrameRow, userInputData,
      featureNames28, scenario2Record, defaultRecord, yesNoEncode,
      genderEncode, coagulation_dysfunction, respiratory_failure,
      lookup_cons_step]

/-- Modelled from the spec: the attribution engine (shap.TreeExplainer,
line 21) is an external library whose code is not part of this repository;
the spec consumes it as an engine returning a baseline expected value and
one additive contribution per schema feature.  SHAP contributions are the
Shapley values of the cooperative game v over the feature positions, where
v S is the model's expected raw output when exactly the features in S are
known to take their values from the assembled vector.  coalitionBefore
gives the set of features placed before position k in the ordering p. -/
def coalitionBefore (n : ℕ) (p : Equiv.Perm (Fin n)) (k : ℕ) :
    Finset (Fin n) :=
  Finset.univ.filter (fun x => (p.symm x).val < k)

/-- The marginal contribution of feature i when it joins the coalition of
the features ordered before it by p. -/
def marginalGain (n : ℕ) (v : Finset (Fin n) → ℚ) (p : Equiv.Perm (Fin n))
    (i : Fin n) : ℚ :=
  v (insert i (coalitionBefore n p (p.symm i).val)) -
    v (coalitionBefore n p (p.symm i).val)

/-- The SHAP contribution of feature i: its marginal contribution averaged
over all n! orderings of the features (the permutation form of the Shapley
value, which is what the attribution engine computes per feature). -/
def shapContribution (n : ℕ) (v : Finset (Fin n) → ℚ) (i : Fin n) : ℚ :=
  (∑ p : Equiv.Perm (Fin n), marginalGain n v p i) / (Nat.factorial n : ℚ)

/-- The explainer baseline (expected_value, line 137): the model's expected
raw output when no feature is known. -/
def shapBaseline (n : ℕ) (v : Finset (Fin n) → ℚ) : ℚ := v ∅

theorem coalitionBefore_zero (n : ℕ) (p : Equiv.Perm (Fin n)) :
    coalitionBefore n p 0 = ∅ := by
  ext x
  simp [coalitionBefore]

theorem coalitionBefore_top (n : ℕ) (p : Equiv.Perm (Fin n)) :
    coalitionBefore n p n = Finset.univ := by
  ext x
  simp [coalitionBefore, (p.symm x).isLt]

theorem coalitionBefore_succ (n : ℕ) (p : Equiv.Perm (Fin n)) (k : Fin n) :
    coalitionBefore n p (k.val + 1) =
      insert (p k) (coalitionBefore n p k.val) := by
  ext x
  simp only [coalitionBefore, Finset.mem_filter, Finset.mem_univ, true_and,
    Finset.mem_insert]
  constructor
  · intro hx
    rcases Nat.lt_succ_iff_lt_or_eq.mp hx with h | h
    · exact Or.inr h
    · left
      have hk : p.symm x = k := Fin.ext h
      rw [← hk, Equiv.apply_symm_apply]
  · intro hx
    rcases hx with h | h
    · subst h
      rw [Equiv.symm_apply_apply]
      exact Nat.lt_succ_self k.val
    · exact Nat.lt_succ_of_lt h

/-- Along one fixed ordering of the features, the marginal contributions
telescope to the value of the grand coalition minus the baseline. -/
theorem marginalGain_telescope (n : ℕ) (v : Finset (Fin n) → ℚ)
    (p : Equiv.Perm (Fin n)) :
    ∑ i : Fin n, marginalGain n v p i = v Finset.univ - v ∅ := by
  have h1 : ∑ i : Fin n, marginalGain n v p i =
      ∑ k : Fin n, marginalGain n v p (p k) := (Equiv.sum_comp p _).symm
  have h2 : ∀ k : Fin n, marginalGain n v p (p k) =
      v (coalitionBefore n p (k.val + 1)) - v (coalitionBefore n p k.val) := by
    intro k
    unfold marginalGain
    rw [Equiv.symm_apply_apply, coalitionBefore_succ]
  rw [h1]
  simp only [h2]
  rw [Fin.sum_univ_eq_sum_range
    (fun m => v (coalitionBefore n p (m + 1)) - v (coalitionBefore n p m)) n]
  rw [Finset.sum_range_sub (fun m => v (coalitionBefore n p m)) n]
  rw [coalitionBefore_top, coalitionBefore_zero]

/-- Efficiency of the Shapley attribution: baseline plus the sum of all
per-feature contributions is the value when all features are known. -/
theorem shapley_efficiency (n : ℕ) (v : Finset (Fin n) → ℚ) :
    shapBaseline n v + ∑ i : Fin n, shapContribution n v i =
      v Finset.univ := by
  unfold shapContribution shapBaseline
  rw [← Finset.sum_div]
  rw [Finset.sum_comm]
  have hstep : ∑ p : Equiv.Perm (Fin n), ∑ i : Fin n, marginalGain n v p i =
      (Nat.factorial n : ℚ) * (v Finset.univ - v ∅) := by
    simp only [marginalGain_telescope]
    rw [Finset.sum_const, Finset.card_univ, Fintype.card_perm,
      Fintype.card_fin, nsmul_eq_mul]
  rw [hstep, mul_div_cancel_left₀ _
    (Nat.cast_ne_zero.mpr (Nat.factorial_ne_zero n))]
  ring

/-- C8: the Explanation Result satisfies the additive decomposition law:
the explainer baseline plus the sum of the per-feature contributions,
indexed by the 28 schema positions, equals the model's raw output for the
assembled vector (the value of the game at the full feature set), exactly
over the rationals, hence within any floating-point tolerance. -/
theorem C8_additive_explanation_law
    (v : Finset (Fin featureNames28.length) → ℚ) :
    shapBaseline featureNames28.length v +
      ∑ i : Fin featureNames28.length,
        shapContribution featureNames28.length v i =
      v Finset.univ :=
  shapley_efficiency featureNames28.length v
